import Mathlib

/-!
Verification development for the Telepharma WhatsApp chatbot (Node.js/Express).
The repository contains several snapshots of the same application:
  * `src/app.js`                     — revision with token-mode gender input;
  * `src/unnamed/part_000`           — `ChatbotManager` class revision (recursive
                                       conversation handler with a depth guard,
                                       `validateDateOfBirth`, `finishOrder` with
                                       a try/catch around `order.save()`);
  * `src/unnamed/part_001`           — three concatenated revisions: "rev A"
                                       (lines 1-1070, switch fallthrough in
                                       `handlePrescriptionOptions`), "rev B"
                                       (lines 1071-1366, 1-based
                                       `registrationStep`), and "rev C"
                                       (lines 1367-2726).

The definitions below are shallow embeddings of those JavaScript functions:
JS `Map`s become association lists (keys unique by construction), JS `Date`
values become integer milliseconds since the Unix epoch (the proleptic
Gregorian civil-day arithmetic that `new Date(y, m, d)` performs, including
its day/month rollover and its mapping of years 0-99 to 1900-1999), and the
WhatsApp sends become a returned list of message-body strings.  Time zone is
taken as UTC.  Binary image payloads are abstracted to a presence marker
(`RegValue.image`); nothing proved below inspects image bytes.
-/

namespace Telepharma

/-- A value stored in the `conversationState.data` map (JS `Map` of Mixed):
a string, a parsed `Date` (epoch milliseconds), JS `null`, or an uploaded
prescription-image object (binary payload abstracted away). -/
inductive RegValue where
  | str (s : String)
  | date (ms : Int)
  | null
  | image
deriving DecidableEq

/-- `conversationState.currentStep` holds a number during registration
(0-based index in `src/app.js` / rev A) and a step-name string during the
ordering flows. -/
inductive StepV where
  | num (k : Nat)
  | str (s : String)
deriving DecidableEq

/-- The mongoose `User` document, restricted to the fields the conversation
engine reads or writes.  `profile` models the dynamic `user[field] = value`
assignments performed when registration completes; `data` is
`conversationState.data`; `lastUpdated` is `conversationState.lastUpdated`. -/
structure AUser where
  profile : List (String × RegValue)
  isRegistrationComplete : Bool
  currentFlow : Option String
  currentStep : Option StepV
  data : List (String × RegValue)
  lastUpdated : Int
deriving DecidableEq

/-- JS `Map.prototype.get`: first (and, for maps, only) binding of a key. -/
def getKey {V : Type} : List (String × V) → String → Option V
  | [], _ => none
  | p :: rest, k => if p.1 = k then some p.2 else getKey rest k

/-- JS `Map.prototype.set`: replace the binding in place if the key exists,
otherwise append a new binding (JS `Map` preserves insertion order). -/
def setKey {V : Type} : List (String × V) → String → V → List (String × V)
  | [], k, v => [(k, v)]
  | p :: rest, k, v => if p.1 = k then (k, v) :: rest else p :: setKey rest k v

/-- JS `Map.prototype.delete`: remove the binding of a key.  A JS `Map` holds
each key at most once, so removing every occurrence coincides with removing
the single entry on every list built with `setKey` from `[]`. -/
def delKey {V : Type} : List (String × V) → String → List (String × V)
  | [], _ => []
  | p :: rest, k => if p.1 = k then delKey rest k else p :: delKey rest k

/-- JS truthiness of a stored value (`""` and `null` are falsy). -/
def jsTruthyV : RegValue → Bool
  | RegValue.str s => s ≠ ""
  | RegValue.date _ => true
  | RegValue.null => false
  | RegValue.image => true

/-- String rendering of a stored value, as JS template interpolation would
produce for the cases that actually occur (strings).  The remaining cases are
never exercised by the theorems below. -/
def jsValStr : RegValue → String
  | RegValue.str s => s
  | RegValue.date _ => "[Date]"
  | RegValue.null => "null"
  | RegValue.image => "[object Object]"

/-- `data.get(k) || dflt` where the stored values are strings. -/
def getStrOr (data : List (String × RegValue)) (k dflt : String) : String :=
  match getKey data k with
  | some v => if jsTruthyV v then jsValStr v else dflt
  | none => dflt

/-! ## JS `Date` arithmetic

`new Date(y, m, d)` normalises out-of-range month indices and days by
rolling them over (so `new Date(2020, 1, 31)` is 2 March 2020), and maps a
year argument between 0 and 99 to 1900 + year.  We model the result as epoch
milliseconds via standard civil-from-days / days-from-civil arithmetic. -/

/-- Days since 1970-01-01 of the civil date `y-m-d` (`m` between 1 and 12;
`d` may lie outside the month and rolls over, exactly like the JS `Date`
constructor). -/
def daysFromCivil (y m d : Int) : Int :=
  let yAdj := if m ≤ 2 then y - 1 else y
  let era := yAdj.fdiv 400
  let yoe := yAdj - era * 400
  let mp := if 2 < m then m - 3 else m + 9
  let doy := (153 * mp + 2).fdiv 5 + d - 1
  let doe := yoe * 365 + yoe.fdiv 4 - yoe.fdiv 100 + doy
  era * 146097 + doe - 719468

/-- The civil year containing the day `z` (days since 1970-01-01). -/
def civilYearFromDays (z0 : Int) : Int :=
  let z := z0 + 719468
  let era := z.fdiv 146097
  let doe := z - era * 146097
  let yoe := (doe - doe.fdiv 1460 + doe.fdiv 36524 - doe.fdiv 146096).fdiv 365
  let y := yoe + era * 400
  let doy := doe - (365 * yoe + yoe.fdiv 4 - yoe.fdiv 100)
  let mp := (5 * doy + 2).fdiv 153
  let m := if mp < 10 then mp + 3 else mp - 9
  if m ≤ 2 then y + 1 else y

/-- Epoch milliseconds of `new Date(year, m0, day)` (month index `m0` is
0-based, rollover semantics, years 0-99 mapped to 1900-1999, UTC). -/
def jsDateMs (year m0 day : Int) : Int :=
  let y := if 0 ≤ year ∧ year ≤ 99 then 1900 + year else year
  let yN := y + m0.fdiv 12
  let mN := m0.emod 12 + 1
  (daysFromCivil yN mN 1 + (day - 1)) * 86400000

/-- `isNaN(date.getTime())`: a JS `Date` is invalid when its timestamp falls
outside ±8.64e15 ms (for numeric constructor arguments this is the only way
the result can be invalid). -/
def jsDateNaN (ms : Int) : Bool :=
  decide (8640000000000000 < ms) || decide (ms < -8640000000000000)

/-- `Date.prototype.getFullYear` (UTC). -/
def getFullYear (ms : Int) : Int := civilYearFromDays (ms.fdiv 86400000)

/-! ## JS `parseInt` -/

/-- Value of a decimal digit character, if it is one. -/
def decVal (c : Char) : Option Nat :=
  if c.isDigit then some (c.toNat - 48) else none

/-- Value of a hexadecimal digit character, if it is one. -/
def hexVal (c : Char) : Option Nat :=
  if c.isDigit then some (c.toNat - 48)
  else if 'a' ≤ c ∧ c ≤ 'f' then some (c.toNat - 87)
  else if 'A' ≤ c ∧ c ≤ 'F' then some (c.toNat - 55)
  else none

/-- Accumulate the longest prefix of digits (continuation of `spanVal`). -/
def spanValGo (p : Char → Option Nat) (base : Nat) : List Char → Nat → Nat
  | [], acc => acc
  | c :: r, acc =>
    match p c with
    | some v => spanValGo p base r (acc * base + v)
    | none => acc

/-- Numeric value of the longest non-empty digit prefix, `none` if the first
character is not a digit (JS `parseInt` returns `NaN` then). -/
def spanVal (p : Char → Option Nat) (base : Nat) : List Char → Option Nat
  | [] => none
  | c :: r =>
    match p c with
    | some v => some (spanValGo p base r v)
    | none => none

/-- `parseInt` after sign handling: a leading `0x`/`0X` selects base 16,
otherwise base 10. -/
def jsParsePos : List Char → Option Nat
  | '0' :: c :: r =>
    if c = 'x' ∨ c = 'X' then spanVal hexVal 16 r
    else spanVal decVal 10 ('0' :: c :: r)
  | cs => spanVal decVal 10 cs

/-- JS `parseInt(s)` with no radix argument: skip leading whitespace, accept
an optional sign, then parse the longest digit prefix; `none` models `NaN`. -/
def jsParseInt (s : String) : Option Int :=
  let cs := s.data.dropWhile Char.isWhitespace
  match cs with
  | '-' :: r => (jsParsePos r).map (fun v => -(v : Int))
  | '+' :: r => (jsParsePos r).map (fun v => (v : Int))
  | r => (jsParsePos r).map (fun v => (v : Int))

/-! ## Date-of-birth input parsing -/

/-- The regex `^\d{2}\/\d{2}\/\d{4}$` used by `src/app.js` (line 193),
part_001 rev A (line 242) and part_001 rev B (line 1218). -/
def matchDDMMYYYY (s : String) : Bool :=
  match s.data with
  | [a, b, c, d, e, f, g, h, i, j] =>
    a.isDigit && b.isDigit && (c = '/') && d.isDigit && e.isDigit && (f = '/')
      && g.isDigit && h.isDigit && i.isDigit && j.isDigit
  | _ => false

/-- The regex `^(\d{2}\/\d{2}\/\d{4}|\d{7})$` of
`ChatbotManager.validateDateOfBirth` (part_000 line 404). -/
def matchDOB000 (s : String) : Bool :=
  matchDDMMYYYY s || ((s.data.length = 7 : Bool) && s.data.all Char.isDigit)

/-- Numeric value of a digit string (`Number` coercion on the pure-digit
substrings produced by the regexes above). -/
def digitsToInt (l : List Char) : Int :=
  Int.ofNat (l.foldl (fun acc c => acc * 10 + (c.toNat - 48)) 0)

/-- `const [day, month, year] = message.split("/")` on a `DD/MM/YYYY` string,
with each component coerced to a number. -/
def dobPartsSlash (s : String) : Int × Int × Int :=
  match s.data with
  | [a, b, _, c, d, _, e, f, g, h] =>
    (digitsToInt [a, b], digitsToInt [c, d], digitsToInt [e, f, g, h])
  | _ => (0, 0, 0)

/-- The day/month/year split of part_000 `validateDateOfBirth`: either a
slash split or `substr(0,2) / substr(2,2) / substr(4)` on the 7-digit form. -/
def dobParts000 (s : String) : Int × Int × Int :=
  if s.data.contains '/' then dobPartsSlash s
  else
    match s.data with
    | [a, b, c, d, e, f, g] =>
      (digitsToInt [a, b], digitsToInt [c, d], digitsToInt [e, f, g])
    | _ => (0, 0, 0)

/-- `ChatbotManager.validateDateOfBirth` (part_000 lines 403-426): regex
check, then `new Date(year, month - 1, day)` must be a valid date strictly
before `new Date()` with `getFullYear()` between 1900 and the current year. -/
def validateDateOfBirth (now : Int) (dateString : String) : Bool :=
  if matchDOB000 dateString then
    let p := dobParts000 dateString
    let ms := jsDateMs p.2.2 (p.2.1 - 1) p.1
    (!jsDateNaN ms) && decide (ms < now)
      && decide (1900 ≤ getFullYear ms)
      && decide (getFullYear ms ≤ getFullYear now)
  else false

/-! ## Registration flow catalog

The `registrationSteps` array (app.js lines 138-155, part_001 rev A lines
178-210; prompts as in rev A, app.js differs only in markdown underscores
around the back hint and in the gender prompt, which nothing below relies
on). -/

/-- One entry of the `registrationSteps` array. -/
structure RegStep where
  prompt : String
  field : String
  options : List String
deriving DecidableEq

def stepFirstName : RegStep :=
  ⟨"Step 1: Please provide your first name.", "firstName", []⟩

def stepSurname : RegStep :=
  ⟨"Step 2: Please provide your surname.", "surname", []⟩

def stepDateOfBirth : RegStep :=
  ⟨"Step 3: Please provide your date of birth in the format DD/MM/YYYY.",
   "dateOfBirth", []⟩

def stepGender : RegStep :=
  ⟨"Step 4: Please select your gender:\n1. MALE\n2. FEMALE", "gender",
   ["MALE", "FEMALE"]⟩

def stepMedicalAidProvider : RegStep :=
  ⟨"Step 5: Please select your medical aid provider. Type a number:\n1. BOMAID\n2. PULA\n3. BPOMAS\n4. BOTSOGO",
   "medicalAidProvider", ["BOMAID", "PULA", "BPOMAS", "BOTSOGO"]⟩

def stepMedicalAidNumber : RegStep :=
  ⟨"Step 6: Please provide your medical aid number.", "medicalAidNumber", []⟩

def stepScheme : RegStep :=
  ⟨"Step 7: Please specify your scheme (if applicable).", "scheme", []⟩

def stepDependentNumber : RegStep :=
  ⟨"Step 8: If you have a dependent number, please provide it. Otherwise, type \"N/A\".",
   "dependentNumber", []⟩

def registrationSteps : List RegStep :=
  [stepFirstName, stepSurname, stepDateOfBirth, stepGender,
   stepMedicalAidProvider, stepMedicalAidNumber, stepScheme,
   stepDependentNumber]

/-- `String.prototype.toUpperCase` (ASCII, which covers the inputs used). -/
def jsToUpper (s : String) : String := String.mk (s.data.map Char.toUpper)

/-- Numeric option selection: `const index = parseInt(message) - 1;
if (index >= 0 && index < step.options.length) parsedValue = step.options[index]`
(app.js lines 210-215 for `medicalAidProvider`; rev A also uses it for
`gender`). -/
def optionIndexPick (stp : RegStep) (m : String) : Option RegValue :=
  match jsParseInt m with
  | some n =>
    let index := n - 1
    if 0 ≤ index ∧ index < (stp.options.length : Int) then
      match stp.options[index.toNat]? with
      | some t => some (RegValue.str t)
      | none => none
    else none
  | none => none

/-- The input-validation `switch` of `handleRegistration` in `src/app.js`
(lines 191-222): date regex + rollover parse with the strictly-before-now
check, token-mode gender, numeric medical-aid provider, `"N/A"` sentinel for
the dependent number, free text otherwise.  `none` models `isValid = false`,
`some v` the parsed value. -/
def validateApp (stp : RegStep) (m : String) (now : Int) : Option RegValue :=
  match stp.field with
  | "dateOfBirth" =>
    if matchDDMMYYYY m then
      let p := dobPartsSlash m
      let ms := jsDateMs p.2.2 (p.2.1 - 1) p.1
      if jsDateNaN ms ∨ now ≤ ms then none else some (RegValue.date ms)
    else none
  | "gender" =>
    if m = "MALE" ∨ m = "FEMALE" then some (RegValue.str m) else none
  | "medicalAidProvider" => optionIndexPick stp m
  | "dependentNumber" =>
    if jsToUpper m = "N/A" then some RegValue.null else some (RegValue.str m)
  | _ => some (RegValue.str m)

/-- The validation `switch` of part_001 rev A `handleRegistration` (lines
240-274): identical to `src/app.js` except that gender is selected by
1-based numeric index. -/
def validateRevA (stp : RegStep) (m : String) (now : Int) : Option RegValue :=
  match stp.field with
  | "dateOfBirth" =>
    if matchDDMMYYYY m then
      let p := dobPartsSlash m
      let ms := jsDateMs p.2.2 (p.2.1 - 1) p.1
      if jsDateNaN ms ∨ now ≤ ms then none else some (RegValue.date ms)
    else none
  | "gender" => optionIndexPick stp m
  | "medicalAidProvider" => optionIndexPick stp m
  | "dependentNumber" =>
    if jsToUpper m = "N/A" then some RegValue.null else some (RegValue.str m)
  | _ => some (RegValue.str m)

def invalidInputMsg : String := "Invalid input. Please try again."

def regCatchMsg : String :=
  "We encountered an error processing your registration. Please try again or contact support if the issue persists."

def timeoutMsg : String :=
  "Your session has timed out. Returning to the main menu."

/-- `sendMainMenu` body of part_001 rev A (line 330). -/
def mainMenuAMsg : String :=
  "Main Menu:\n1. Place an Order\n2. View Order Status\n3. Medication Delivery\n4. Pharmacy Consultation\n5. Doctor Consultation\n6. General Enquiry"

/-- `sendMainMenu` body of part_000 (line 454; sent with quick-reply
buttons, whose titles are not part of the body). -/
def mainMenu000Msg : String := "Main Menu:"

/-- `sendRegistrationPrompt` (app.js lines 157-174, rev A lines 212-221):
the prompt of the step at index `cs`, with the back hint appended from step
index 1 onward. -/
def regPrompt (cs : Nat) : String :=
  match registrationSteps[cs]? with
  | some stp =>
    stp.prompt ++
      (if 0 < cs then "\n\nEnter \"00\" to go back to the previous step." else "")
  | none => ""

/-- `for (const [field, value] of user.conversationState.data) user[field] = value`
executed when registration completes. -/
def commitData (profile data : List (String × RegValue)) :
    List (String × RegValue) :=
  data.foldl (fun p kv => setKey p kv.1 kv.2) profile

/-- The registration completion message (interpolates `user.firstName`). -/
def completionMsg (profile : List (String × RegValue)) : String :=
  "Thank you for registering, " ++
    (match getKey profile "firstName" with
     | some v => jsValStr v
     | none => "undefined") ++
    "! Your registration is now complete. You can now use our WhatsApp medication delivery service."

/-- `handleRegistration` of `src/app.js` (lines 176-257) and part_001 rev A
(lines 223-313), parameterised by the validation `switch` (the only point at
which the two revisions differ; rev A additionally stamps `lastUpdated` on
completion, which app.js's schema does not carry).  The back branch
decrements the step and then deletes the field of the step it lands on; the
forward branch validates, stores the parsed value, and either advances or —
at the last step — copies `data` onto the profile, marks registration
complete, and resets the conversation state.  An out-of-range or non-numeric
`currentStep` makes the JS code throw on `registrationSteps[...].field` and
land in the surrounding `catch`, which sends the generic registration error
and persists nothing. -/
def handleRegistrationWith
    (validator : RegStep → String → Int → Option RegValue)
    (u : AUser) (m : String) (now : Int) : AUser × List String :=
  match u.currentStep with
  | some (StepV.num cs) =>
    if m = "00" ∧ 0 < cs then
      match registrationSteps[cs - 1]? with
      | some stp =>
        ({ u with currentStep := some (StepV.num (cs - 1)),
                  data := delKey u.data stp.field },
         [regPrompt (cs - 1)])
      | none => (u, [regCatchMsg])
    else
      match registrationSteps[cs]? with
      | some stp =>
        match validator stp m now with
        | none => (u, [invalidInputMsg, regPrompt cs])
        | some v =>
          let data1 := setKey u.data stp.field v
          if cs < registrationSteps.length - 1 then
            ({ u with currentStep := some (StepV.num (cs + 1)), data := data1 },
             [regPrompt (cs + 1)])
          else
            let profile1 := commitData u.profile data1
            ({ u with profile := profile1,
                      isRegistrationComplete := true,
                      currentFlow := some "MAIN_MENU",
                      currentStep := none,
                      data := [],
                      lastUpdated := now },
             [completionMsg profile1, mainMenuAMsg])
      | none => (u, [regCatchMsg])
  | _ => (u, [regCatchMsg])

/-- `handleRegistration` of `src/app.js`. -/
def appHandleRegistration (u : AUser) (m : String) (now : Int) :
    AUser × List String :=
  handleRegistrationWith validateApp u m now

/-- `handleRegistration` of part_001 rev A. -/
def revAHandleRegistration (u : AUser) (m : String) (now : Int) :
    AUser × List String :=
  handleRegistrationWith validateRevA u m now

/-! ## Rev B registration (1-based `registrationStep`)

Part_001 rev B (lines 1163-1277) keeps the registration position in a
1-based `user.registrationStep` with scratch in `user.registrationData`;
there is no `conversationState`. -/

/-- The `User` document of part_001 rev B, restricted to the fields its
`handleRegistration` touches. -/
structure BUser where
  profile : List (String × RegValue)
  registrationStep : Nat
  registrationData : List (String × RegValue)
  isRegistrationComplete : Bool
deriving DecidableEq

/-- `sendRegistrationPrompt` of rev B (lines 1182-1199): prompt of
`registrationSteps[user.registrationStep - 1]`, back hint from step 2 on. -/
def regPromptB (s : Nat) : String :=
  match registrationSteps[s - 1]? with
  | some stp =>
    stp.prompt ++
      (if 1 < s then "\n\n_Enter \"00\" to go back to the previous step._" else "")
  | none => ""

/-- `handleRegistration` of part_001 rev B (lines 1201-1277).  Validation is
the `src/app.js` switch (`validateApp`: same date regex, token-mode gender).
The back branch decrements `registrationStep` to `s - 1` and then deletes
`registrationSteps[s - 1].field` — because the 1-based step `t` collects the
field at array index `t - 1`, the deleted field is the one belonging to the
step being LEFT (not yet collected there), so the just-collected value of
the step being returned to stays in `registrationData`. -/
def handleRegistrationB (u : BUser) (m : String) (now : Int) :
    BUser × List String :=
  if m = "00" ∧ 1 < u.registrationStep then
    let s1 := u.registrationStep - 1
    match registrationSteps[s1]? with
    | some stp =>
      ({ u with registrationStep := s1,
                registrationData := delKey u.registrationData stp.field },
       [regPromptB s1])
    | none => (u, [regCatchMsg])
  else
    match registrationSteps[u.registrationStep - 1]? with
    | some stp =>
      match validateApp stp m now with
      | none => (u, [invalidInputMsg, regPromptB u.registrationStep])
      | some v =>
        let data1 := setKey u.registrationData stp.field v
        if u.registrationStep < registrationSteps.length then
          ({ u with registrationStep := u.registrationStep + 1,
                    registrationData := data1 },
           [regPromptB (u.registrationStep + 1)])
        else
          let profile1 := commitData u.profile data1
          ({ u with profile := profile1,
                    registrationData := data1,
                    isRegistrationComplete := true },
           [completionMsg profile1])
    | none => (u, [regCatchMsg])

/-! ## Conversation dispatch

The per-flow handlers of the ordering and auxiliary flows are abstracted
into a record of functions: the session-timeout and depth-guard claims are
about the dispatch skeleton (`handleConversation` of part_001 rev A,
`handleConversationRecursively` of part_000), which is embedded exactly,
for every possible behaviour of the individual flow handlers. -/

/-- One flow handler: consumes the user document and the message body,
returns the updated document and the messages sent. -/
def Handler : Type := AUser → String → AUser × List String

/-- The per-flow handlers a conversation dispatcher delegates to. -/
structure FlowHandlers where
  mainMenu : Handler
  placeOrder : Handler
  viewOrderStatus : Handler
  medicationDelivery : Handler
  pharmacyConsultation : Handler
  doctorConsultation : Handler
  generalEnquiry : Handler

/-- The conversation-state reset written by every abort-to-root branch:
`{ currentFlow: "MAIN_MENU", currentStep: null, data: new Map(), lastUpdated: new Date() }`. -/
def resetA (u : AUser) (now : Int) : AUser :=
  { u with currentFlow := some "MAIN_MENU", currentStep := none,
           data := [], lastUpdated := now }

def confusedMsg : String :=
  "I\x27m sorry, I didn\x27t understand that. Let\x27s go back to the main menu."

/-- `handleConversation` of part_001 rev A (lines 801-879): a null or
`MAIN_MENU` flow re-initialises the state and goes to the main-menu handler;
otherwise a `lastUpdated` older than 30 minutes resets to the main menu with
the session-expired notice before the flow switch is ever consulted; the
switch then dispatches on `currentFlow` (`REGISTRATION` is dispatched to the
concrete rev A registration handler), with unknown flows resetting. -/
def handleConversationA (h : FlowHandlers) (now : Int) (u : AUser)
    (m : String) : AUser × List String :=
  if u.currentFlow = none ∨ u.currentFlow = some "MAIN_MENU" then
    h.mainMenu (resetA u now) m
  else if u.lastUpdated < now - 30 * 60 * 1000 then
    (resetA u now, [timeoutMsg, mainMenuAMsg])
  else
    match u.currentFlow with
    | some "REGISTRATION" => revAHandleRegistration u m now
    | some "PLACE_ORDER" => h.placeOrder u m
    | some "VIEW_ORDER_STATUS" => h.viewOrderStatus u m
    | some "MEDICATION_DELIVERY" => h.medicationDelivery u m
    | some "PHARMACY_CONSULTATION" => h.pharmacyConsultation u m
    | some "DOCTOR_CONSULTATION" => h.doctorConsultation u m
    | some "GENERAL_ENQUIRY" => h.generalEnquiry u m
    | _ => (resetA u now, [confusedMsg, mainMenuAMsg])

/-- The routing step of the rev A webhook (lines 1030-1039): contacts whose
registration is incomplete go straight to `handleRegistration`; only
registered contacts reach `handleConversation` (and hence its session-timeout
check). -/
def processIncomingA (h : FlowHandlers) (now : Int) (u : AUser)
    (m : String) : AUser × List String :=
  if u.isRegistrationComplete = false then revAHandleRegistration u m now
  else handleConversationA h now u m

/-! ## part_000 recursive conversation handler with depth guard -/

/-- `ChatbotManager.isSessionTimedOut` (part_000 lines 1091-1094). -/
def isSessionTimedOut (now lastUpdated : Int) : Prop :=
  lastUpdated < now - 30 * 60 * 1000

instance (now lastUpdated : Int) : Decidable (isSessionTimedOut now lastUpdated) := by
  unfold isSessionTimedOut; infer_instance

def issueMsg : String :=
  "We\x27ve encountered an issue. Returning to the main menu."

/-- The flow `switch` inside `handleConversationRecursively` (part_000 lines
488-513); the default branch is `resetConversationState`, which resets and
sends the main menu. -/
def dispatchFlow000 (h : FlowHandlers) (now : Int) (u : AUser)
    (m : String) : AUser × List String :=
  match u.currentFlow with
  | some "MAIN_MENU" => h.mainMenu u m
  | some "PLACE_ORDER" => h.placeOrder u m
  | some "VIEW_ORDER_STATUS" => h.viewOrderStatus u m
  | some "MEDICATION_DELIVERY" => h.medicationDelivery u m
  | some "PHARMACY_CONSULTATION" => h.pharmacyConsultation u m
  | some "DOCTOR_CONSULTATION" => h.doctorConsultation u m
  | some "GENERAL_ENQUIRY" => h.generalEnquiry u m
  | _ => (resetA u now, [mainMenu000Msg])

/-- `ChatbotManager.handleConversationRecursively` (part_000 lines 469-522):
a call at `depth > 10` aborts to the main menu with a generic error; a stale
session resets with the timeout notice; otherwise the flow switch runs and,
if the resulting flow is not `MAIN_MENU`, the handler recurses on the same
message at `depth + 1`. -/
def handleConversationRecursively (h : FlowHandlers) (now : Int)
    (u : AUser) (m : String) (depth : Nat) : AUser × List String :=
  if h10 : 10 < depth then
    (resetA u now, [issueMsg, mainMenu000Msg])
  else if isSessionTimedOut now u.lastUpdated then
    (resetA u now, [timeoutMsg, mainMenu000Msg])
  else
    let r := dispatchFlow000 h now u m
    if r.1.currentFlow ≠ some "MAIN_MENU" then
      let r2 := handleConversationRecursively h now r.1 m (depth + 1)
      (r2.1, r.2 ++ r2.2)
    else r
termination_by 11 - depth
decreasing_by omega

/-- Ghost instrumentation of `handleConversationRecursively`: the number of
flow-switch dispatches a call performs (the recursion structure is copied
verbatim; the state threading is identical). -/
def conversationDispatchCount (h : FlowHandlers) (now : Int)
    (u : AUser) (m : String) (depth : Nat) : Nat :=
  if h10 : 10 < depth then 0
  else if isSessionTimedOut now u.lastUpdated then 0
  else
    let r := dispatchFlow000 h now u m
    if r.1.currentFlow ≠ some "MAIN_MENU" then
      1 + conversationDispatchCount h now r.1 m (depth + 1)
    else 1
termination_by 11 - depth
decreasing_by omega

/-! ## Rev A prescription-options handler (switch fallthrough) -/

def invalidOptionMsg : String := "Invalid option. Please try again."

def uploadPromptMsg : String :=
  "Please upload a photo of your prescription or type it out."

/-- `sendRefillOptions` body of rev A (lines 638-644). -/
def refillOptionsMsg : String :=
  "Select Your Refill:\n1. Medication A\n2. Medication B\n3. Medication C\n\nEnter 00 to go back to the previous step."

/-- First message of `sendPrescriptionOptions` (rev A lines 593-601). -/
def prescriptionOptionsMsg : String := "Prescription Options:"

/-- Second message of `sendPrescriptionOptions`. -/
def prescriptionOptionsNavMsg : String :=
  "Enter 0 to go back to Main Menu\nEnter 00 to go back to the previous step."

/-- `handlePrescriptionOptions` of part_001 rev A (lines 603-636).  The
`"New Prescription"` case sets `currentStep = "UPLOAD_PRESCRIPTION"` and
`orderType = "NEW_PRESCRIPTION"`, saves, sends the upload prompt — and has
no `break`, so control FALLS THROUGH into the `"0"` case, which overwrites
the conversation state with the main-menu reset and sends the main menu. -/
def handlePrescriptionOptionsA (now : Int) (u : AUser) (m : String) :
    AUser × List String :=
  if m = "Prescription Refill" then
    ({ u with currentStep := some (StepV.str "SELECT_REFILL"),
              data := setKey u.data "orderType" (RegValue.str "PRESCRIPTION_REFILL") },
     [refillOptionsMsg])
  else if m = "New Prescription" then
    let u1 := { u with currentStep := some (StepV.str "UPLOAD_PRESCRIPTION"),
                       data := setKey u.data "orderType" (RegValue.str "NEW_PRESCRIPTION") }
    (resetA u1 now, [uploadPromptMsg, mainMenuAMsg])
  else if m = "0" then
    (resetA u now, [mainMenuAMsg])
  else
    (u, [invalidOptionMsg, prescriptionOptionsMsg, prescriptionOptionsNavMsg])

/-! ## Order finalisation -/

/-- The mongoose `Order` document as assembled by `finishOrder`
(part_000 lines 851-885; the image payload is abstracted to a flag). -/
structure JsOrder where
  orderNumber : String
  orderType : String
  medications : List String
  deliveryMethod : Option String
  deliveryAddressType : String
  deliveryAddress : Option String
  status : String
  prescriptionText : Option String
  hasPrescriptionImage : Bool
deriving DecidableEq

/-- `ChatbotManager.generateOrderNumber` (part_000 lines 1087-1089):
`ORD-${Date.now()}-${Math.floor(Math.random() * 1000)}` — a function of the
current millisecond `t` and the drawn random value `rnd` only. -/
def genOrderNumber000 (t rnd : Int) : String :=
  "ORD-" ++ toString t ++ "-" ++ toString rnd

/-- `generateOrderNumber` of `src/app.js` (lines 561-564):
`"ORD-" + Date.now()` — a function of the current millisecond alone, so two
calls within the same millisecond return the same string. -/
def genOrderNumberApp (t : Int) : String := "ORD-" ++ toString t

/-- The `orderData` object built by `finishOrder` (part_000 lines 852-883):
`orderType` defaults to `OVER_THE_COUNTER`, a missing medications entry is
fabricated as "To be specified", address type is `WORK` exactly when a
truthy `workAddress` was collected, and the address is
`workAddress || homeAddress`. -/
def buildOrder000 (t rnd : Int) (u : AUser) : JsOrder :=
  let w := getKey u.data "workAddress"
  let wTruthy := (w.map jsTruthyV).getD false
  { orderNumber := genOrderNumber000 t rnd
  , orderType := getStrOr u.data "orderType" "OVER_THE_COUNTER"
  , medications := [getStrOr u.data "medications" "To be specified"]
  , deliveryMethod := (getKey u.data "deliveryMethod").map jsValStr
  , deliveryAddressType := if wTruthy then "WORK" else "HOME"
  , deliveryAddress :=
      (if wTruthy then w else getKey u.data "homeAddress").map jsValStr
  , status := "PENDING"
  , prescriptionText :=
      match getKey u.data "prescriptionText" with
      | some v => if jsTruthyV v then some (jsValStr v) else none
      | none => none
  , hasPrescriptionImage :=
      match getKey u.data "prescriptionImage" with
      | some RegValue.image => true
      | _ => false }

/-- Modelled from the spec: the repository operation
`createOrder(Order) → Ok(Order) | Conflict(duplicateOrderNumber)` (spec §6).
The mongoose schema declares `orderNumber: { unique: true }` (part_000 line
54, app.js line 53), but the index enforcement itself lives in the external
MongoDB server, so a duplicate order number makes `order.save()` reject and
any non-duplicate insert succeed atomically. -/
def createOrder (o : JsOrder) (repo : List JsOrder) :
    Except Unit (List JsOrder) :=
  if repo.any (fun p => p.orderNumber = o.orderNumber) then Except.error ()
  else Except.ok (repo ++ [o])

/-- The repository contents after attempting `createOrder`: unchanged when
the save rejects. -/
def applyCreate (repo : List JsOrder) (o : JsOrder) : List JsOrder :=
  match createOrder o repo with
  | Except.ok repo1 => repo1
  | Except.error _ => repo

/-- No two persisted orders carry the same order number. -/
def uniqueOrderNumbers (repo : List JsOrder) : Prop :=
  repo.Pairwise (fun a b => a.orderNumber ≠ b.orderNumber)

def orderErrMsg : String :=
  "We encountered an error processing your order. Please try again or contact support."

/-- The thank-you message of part_000 `finishOrder` (lines 890-900). -/
def successMsg000 (u : AUser) (o : JsOrder) : String :=
  let name :=
    match getKey u.profile "firstName" with
    | some v => jsValStr v
    | none => "undefined"
  if o.orderType = "NEW_PRESCRIPTION" ∨ o.orderType = "PRESCRIPTION_REFILL" then
    "Thank you for providing your prescription, " ++ name ++
      ". Your order number is " ++ o.orderNumber ++
      ". We\x27ll process your request, and a pharmacist will review it. Your medication will be delivered soon."
  else if o.deliveryMethod = some "DELIVERY" then
    "Thank you for your order, " ++ name ++ "! Your order number is " ++
      o.orderNumber ++ ". Your medication will be delivered soon."
  else
    "Thank you for your order, " ++ name ++ "! Your order number is " ++
      o.orderNumber ++ ". Your medication will be ready for pickup soon."

/-- `ChatbotManager.finishOrder` (part_000 lines 851-912; part_001 rev C's
`finishOrder`, lines 2275-2363, has the same control shape): build the order,
attempt `order.save()`, and in BOTH the success and the failure branch send
a message and then `resetConversationState` (main-menu reset plus the
main-menu prompt).  Returns the saved user document, the messages sent, and
the repository contents after the attempt. -/
def finishOrder000 (t rnd now : Int) (repo : List JsOrder) (u : AUser) :
    AUser × List String × List JsOrder :=
  let o := buildOrder000 t rnd u
  match createOrder o repo with
  | Except.ok repo1 =>
    (resetA u now, [successMsg000 u o, mainMenu000Msg], repo1)
  | Except.error _ =>
    (resetA u now, [orderErrMsg, mainMenu000Msg], repo)

/-! ## Concrete documents and handler instances used by witnesses and
counterexamples -/

/-- A handler that answers nothing and leaves the document unchanged. -/
def idHandler : Handler := fun u _ => (u, [])

/-- A fully inert handler table. -/
def idFlowHandlers : FlowHandlers :=
  ⟨idHandler, idHandler, idHandler, idHandler, idHandler, idHandler, idHandler⟩

/-- A handler that moves the document to the `PLACE_ORDER` flow with a fresh
timestamp of 0, modelling a flow whose next-step rule cycles forever. -/
def loopHandler : Handler :=
  fun u _ => ({ u with currentFlow := some "PLACE_ORDER", lastUpdated := 0 }, [])

/-- A handler table whose `PLACE_ORDER` handler cycles forever. -/
def loopFlowHandlers : FlowHandlers :=
  ⟨idHandler, loopHandler, idHandler, idHandler, idHandler, idHandler, idHandler⟩

/-- A document parked in the `PLACE_ORDER` flow with a fresh timestamp. -/
def uLoop : AUser :=
  ⟨[], true, some "PLACE_ORDER", some (StepV.str "MEDICATION_TYPE"), [], 0⟩

/-- A freshly created contact at the first registration step. -/
def uFreshReg : AUser :=
  ⟨[], false, some "REGISTRATION", some (StepV.num 0), [], 0⟩

/-- A mid-registration contact at the date-of-birth step (index 2). -/
def uAtDOB : AUser :=
  ⟨[], false, some "REGISTRATION", some (StepV.num 2),
   [("firstName", RegValue.str "Ann"), ("surname", RegValue.str "Moeng")], 0⟩

/-- A mid-registration contact at the gender step (index 3). -/
def uAtGender : AUser :=
  ⟨[], false, some "REGISTRATION", some (StepV.num 3),
   [("firstName", RegValue.str "Ann"), ("surname", RegValue.str "Moeng"),
    ("dateOfBirth", RegValue.date 683683200000)], 0⟩

/-- A contact at the final registration step (index 7, dependent number). -/
def uAtLastStep : AUser :=
  ⟨[], false, some "REGISTRATION", some (StepV.num 7),
   [("firstName", RegValue.str "Ann")], 0⟩

/-- A rev B contact at 1-based registration step 2 (surname). -/
def uB2 : BUser :=
  ⟨[], 2, [("firstName", RegValue.str "Ann")], false⟩

/-- A mid-registration contact whose `lastUpdated` is far older than the
30-minute session timeout. -/
def uStaleReg : AUser :=
  ⟨[], false, some "REGISTRATION", some (StepV.num 0), [], 0⟩

/-- A registered contact parked mid-order with a stale timestamp. -/
def uStaleOrder : AUser :=
  ⟨[], true, some "PLACE_ORDER", some (StepV.str "MEDICATION_TYPE"), [], 0⟩

/-- A contact about to finalise an OTC delivery order (used for C2). -/
def uFinishC2 : AUser :=
  ⟨[("firstName", RegValue.str "Bob")], true, some "PLACE_ORDER",
   some (StepV.str "ENTER_HOME_ADDRESS"),
   [("orderType", RegValue.str "OVER_THE_COUNTER"),
    ("medications", RegValue.str "Panado"),
    ("deliveryMethod", RegValue.str "DELIVERY"),
    ("homeAddress", RegValue.str "Plot 123, Gaborone")], 0⟩

/-- A repository already holding the order number that `finishOrder` will
generate at millisecond 5 with random draw 7. -/
def repoC2 : List JsOrder := [buildOrder000 5 7 uFinishC2]

/-- A contact about to finalise an OTC pickup order (used for C9). -/
def uFinishC9 : AUser :=
  ⟨[("firstName", RegValue.str "Naledi")], true, some "PLACE_ORDER",
   some (StepV.str "DELIVERY_METHOD"),
   [("orderType", RegValue.str "OVER_THE_COUNTER"),
    ("medications", RegValue.str "Ibuprofen"),
    ("deliveryMethod", RegValue.str "PICKUP")], 0⟩

/-- A repository already holding the order number generated at millisecond
11 with random draw 3. -/
def repoC9 : List JsOrder := [buildOrder000 11 3 uFinishC9]

/-- Two order documents carrying the same generated number, as produced by
two finalisations in the same millisecond with the same random draw. -/
def orderW1 : JsOrder :=
  ⟨genOrderNumber000 42 7, "OVER_THE_COUNTER", ["Panado"], some "PICKUP",
   "HOME", none, "PENDING", none, false⟩

def orderW2 : JsOrder :=
  ⟨genOrderNumber000 42 7, "OVER_THE_COUNTER", ["Aspirin"], some "DELIVERY",
   "HOME", some "Plot 9", "PENDING", none, false⟩

/-! ## Association-list lemmas -/

theorem getKey_delKey {V : Type} (l : List (String × V)) (k k' : String) :
    getKey (delKey l k) k' = if k' = k then none else getKey l k' := by
  induction l with
  | nil => simp [delKey, getKey]
  | cons p rest ih =>
    by_cases hp : p.1 = k
    · simp only [delKey, if_pos hp, ih, getKey]
      by_cases hk : k' = k
      · simp [hk]
      · have : ¬ p.1 = k' := by rw [hp]; exact fun h => hk h.symm
        simp [hk, this]
    · simp only [delKey, if_neg hp, getKey]
      by_cases hpk : p.1 = k'
      · have hk : ¬ k' = k := by rw [← hpk]; exact fun h => hp h
        simp [hpk, hk]
      · simp [hpk, ih]

theorem getKey_setKey {V : Type} (l : List (String × V)) (k k' : String)
    (v : V) :
    getKey (setKey l k v) k' = if k' = k then some v else getKey l k' := by
  induction l with
  | nil =>
    simp only [setKey, getKey]
    by_cases hk : k' = k
    · simp [hk]
    · have : ¬ k = k' := fun h => hk h.symm
      simp [hk, this]
  | cons p rest ih =>
    by_cases hp : p.1 = k
    · simp only [setKey, if_pos hp, getKey]
      by_cases hk : k' = k
      · simp [hk]
      · have h1 : ¬ k = k' := fun h => hk h.symm
        have h2 : ¬ p.1 = k' := by rw [hp]; exact h1
        simp [hk, h1, h2]
    · simp only [setKey, if_neg hp, getKey]
      by_cases hpk : p.1 = k'
      · have hk : ¬ k' = k := by rw [← hpk]; exact fun h => hp h
        simp [hpk, hk]
      · simp [hpk, ih]

theorem setKey_of_getKey_none {V : Type} (l : List (String × V))
    (k : String) (v : V) (h : getKey l k = none) :
    setKey l k v = l ++ [(k, v)] := by
  induction l with
  | nil => simp [setKey]
  | cons p rest ih =>
    simp only [getKey] at h
    by_cases hp : p.1 = k
    · simp [hp] at h
    · simp only [setKey, if_neg hp, List.cons_append, List.cons.injEq, true_and]
      exact ih (by simpa [hp] using h)

theorem delKey_of_getKey_none {V : Type} (l : List (String × V))
    (k : String) (h : getKey l k = none) : delKey l k = l := by
  induction l with
  | nil => simp [delKey]
  | cons p rest ih =>
    simp only [getKey] at h
    by_cases hp : p.1 = k
    · simp [hp] at h
    · simp only [delKey, if_neg hp, List.cons.injEq, true_and]
      exact ih (by simpa [hp] using h)

theorem delKey_append_single {V : Type} (l : List (String × V))
    (k : String) (v : V) (h : getKey l k = none) :
    delKey (l ++ [(k, v)]) k = l := by
  induction l with
  | nil => simp [delKey]
  | cons p rest ih =>
    simp only [getKey] at h
    by_cases hp : p.1 = k
    · simp [hp] at h
    · simp only [List.cons_append, delKey, if_neg hp, List.cons.injEq, true_and]
      exact ih (by simpa [hp] using h)

/-- Deleting a key immediately after inserting it restores a map that did
not contain the key. -/
theorem delKey_setKey {V : Type} (l : List (String × V)) (k : String)
    (v : V) (h : getKey l k = none) : delKey (setKey l k v) k = l := by
  rw [setKey_of_getKey_none l k v h, delKey_append_single l k v h]

/-! ## Registration-state invariant

In every state reachable in the registration flow, the scratch map contains
only fields of steps strictly before the current one; in particular the
current step's own field is absent.  This is what makes the back transition
an exact inverse of a forward transition. -/

/-- The numeric registration step index, when the state carries one. -/
def stepIndex (u : AUser) : Option Nat :=
  match u.currentStep with
  | some (StepV.num k) => some k
  | _ => none

/-- Scratch holds no field belonging to the current or any later step. -/
def RegInv (u : AUser) : Prop :=
  ∀ k, stepIndex u = some k → ∀ j, k ≤ j → ∀ stp,
    registrationSteps[j]? = some stp → getKey u.data stp.field = none

theorem regInv_of_data_nil (u : AUser) (h : u.data = []) : RegInv u := by
  intro k _ j _ stp _
  simp [h, getKey]

theorem registrationSteps_length : registrationSteps.length = 8 := rfl

/-- Distinct registration steps target distinct fields. -/
theorem regField_ne (i j : Nat) (stpi stpj : RegStep)
    (hi : registrationSteps[i]? = some stpi)
    (hj : registrationSteps[j]? = some stpj)
    (hij : i ≠ j) : stpi.field ≠ stpj.field := by
  have hi8 : i < 8 := by
    by_contra hc
    rw [List.getElem?_eq_none (by rw [registrationSteps_length]; omega)] at hi
    exact Option.noConfusion hi
  have hj8 : j < 8 := by
    by_contra hc
    rw [List.getElem?_eq_none (by rw [registrationSteps_length]; omega)] at hj
    exact Option.noConfusion hj
  interval_cases i <;> interval_cases j <;>
    simp_all [registrationSteps, stepFirstName, stepSurname, stepDateOfBirth,
      stepGender, stepMedicalAidProvider, stepMedicalAidNumber, stepScheme,
      stepDependentNumber] <;>
    subst_vars <;> decide

/-- The registration handler preserves the scratch invariant, whatever the
validation switch says. -/
theorem regInv_preserved
    (validator : RegStep → String → Int → Option RegValue)
    (u : AUser) (m : String) (now : Int) (hinv : RegInv u) :
    RegInv (handleRegistrationWith validator u m now).1 := by
  cases hcs : u.currentStep with
  | none => simpa [handleRegistrationWith, hcs] using hinv
  | some sv =>
    cases sv with
    | str s => simpa [handleRegistrationWith, hcs] using hinv
    | num cs =>
      by_cases hback : m = "00" ∧ 0 < cs
      · cases hstp : registrationSteps[cs - 1]? with
        | none => simpa [handleRegistrationWith, hcs, hback, hstp] using hinv
        | some stp =>
          simp only [handleRegistrationWith, hcs, if_pos hback, hstp]
          intro k hk j hkj stpj hj
          simp only [stepIndex, Option.some.injEq] at hk
          subst hk
          rw [getKey_delKey]
          split
          · rfl
          · rename_i hne
            have hjne : j ≠ cs - 1 := by
              intro he
              subst he
              rw [hj] at hstp
              exact hne (congrArg RegStep.field (Option.some.inj hstp))
            exact hinv cs (by simp [stepIndex, hcs]) j (by omega) stpj hj
      · cases hstp : registrationSteps[cs]? with
        | none => simpa [handleRegistrationWith, hcs, hback, hstp] using hinv
        | some stp =>
          cases hval : validator stp m now with
          | none => simpa [handleRegistrationWith, hcs, hback, hstp, hval] using hinv
          | some v =>
            by_cases hlt : cs < registrationSteps.length - 1
            · simp only [handleRegistrationWith, hcs, if_neg hback, hstp, hval,
                if_pos hlt]
              intro k hk j hkj stpj hj
              simp only [stepIndex, Option.some.injEq] at hk
              subst hk
              rw [getKey_setKey]
              split
              · rename_i heq
                exact absurd heq (regField_ne j cs stpj stp hj hstp (by omega))
              · exact hinv cs (by simp [stepIndex, hcs]) j (by omega) stpj hj
            · simp only [handleRegistrationWith, hcs, if_neg hback, hstp, hval,
                if_neg hlt]
              intro k hk
              simp [stepIndex] at hk

/-! ## Depth-guard lemmas for `handleConversationRecursively` -/

/-- Whatever the flow handlers do, the recursive conversation handler always
returns a document whose flow is the main menu. -/
theorem convRec_flow_main (h : FlowHandlers) (now : Int) (m : String) :
    ∀ fuel depth, ∀ u : AUser, 11 ≤ depth + fuel →
      (handleConversationRecursively h now u m depth).1.currentFlow
        = some "MAIN_MENU" := by
  intro fuel
  induction fuel with
  | zero =>
    intro depth u hle
    rw [handleConversationRecursively]
    have h10 : 10 < depth := by omega
    simp [h10, resetA]
  | succ fuel ih =>
    intro depth u hle
    rw [handleConversationRecursively]
    by_cases h10 : 10 < depth
    · simp [h10, resetA]
    · simp only [dif_neg h10]
      by_cases ht : isSessionTimedOut now u.lastUpdated
      · simp [ht, resetA]
      · simp only [if_neg ht]
        by_cases hf : (dispatchFlow000 h now u m).1.currentFlow = some "MAIN_MENU"
        · simp [hf]
        · simp only [ne_eq, hf, not_false_eq_true, if_pos]
          exact ih (depth + 1) _ (by omega)

/-- The recursion performs at most `11 - depth` flow dispatches. -/
theorem convCount_le (h : FlowHandlers) (now : Int) (m : String) :
    ∀ fuel depth, ∀ u : AUser, 11 ≤ depth + fuel →
      conversationDispatchCount h now u m depth ≤ 11 - depth := by
  intro fuel
  induction fuel with
  | zero =>
    intro depth u hle
    rw [conversationDispatchCount]
    have h10 : 10 < depth := by omega
    simp [h10]
  | succ fuel ih =>
    intro depth u hle
    rw [conversationDispatchCount]
    by_cases h10 : 10 < depth
    · simp [h10]
    · simp only [dif_neg h10]
      by_cases ht : isSessionTimedOut now u.lastUpdated
      · simp [ht]
      · simp only [if_neg ht]
        by_cases hf : (dispatchFlow000 h now u m).1.currentFlow = some "MAIN_MENU"
        · simp [hf]; omega
        · simp only [ne_eq, hf, not_false_eq_true, if_pos]
          have := ih (depth + 1) (dispatchFlow000 h now u m).1 (by omega)
          omega

/-- If the `PLACE_ORDER` handler keeps the document in the `PLACE_ORDER`
flow with a fresh timestamp forever, the recursion runs into the depth guard
and ends in the main-menu reset with the generic error message. -/
theorem convRec_abort (h : FlowHandlers) (now : Int) (m : String)
    (hK : ∀ u' : AUser, ∀ m' : String, u'.currentFlow = some "PLACE_ORDER" →
      (h.placeOrder u' m').1.currentFlow = some "PLACE_ORDER" ∧
      ¬ isSessionTimedOut now (h.placeOrder u' m').1.lastUpdated) :
    ∀ fuel depth, ∀ u : AUser, 11 ≤ depth + fuel →
      u.currentFlow = some "PLACE_ORDER" →
      ¬ isSessionTimedOut now u.lastUpdated →
      (handleConversationRecursively h now u m depth).1.currentStep = none ∧
      (handleConversationRecursively h now u m depth).1.data = [] ∧
      issueMsg ∈ (handleConversationRecursively h now u m depth).2 := by
  intro fuel
  induction fuel with
  | zero =>
    intro depth u hle _ _
    rw [handleConversationRecursively]
    have h10 : 10 < depth := by omega
    simp [h10, resetA]
  | succ fuel ih =>
    intro depth u hle hflow ht
    rw [handleConversationRecursively]
    by_cases h10 : 10 < depth
    · simp [h10, resetA]
    · simp only [dif_neg h10, if_neg ht]
      have hdisp : dispatchFlow000 h now u m = h.placeOrder u m := by
        simp [dispatchFlow000, hflow]
      have hK1 := hK u m hflow
      have hne : (dispatchFlow000 h now u m).1.currentFlow ≠ some "MAIN_MENU" := by
        rw [hdisp, hK1.1]
        simp
      simp only [ne_eq, hne, not_false_eq_true, if_pos]
      have := ih (depth + 1) (dispatchFlow000 h now u m).1 (by omega)
        (by rw [hdisp]; exact hK1.1) (by rw [hdisp]; exact hK1.2)
      exact ⟨this.1, this.2.1, List.mem_append_right _ this.2.2⟩

/-! ## Repository lemma -/

/-- A single `createOrder` attempt preserves order-number uniqueness of
the persisted set: either the insert succeeds because no persisted order
carries the number, or it rejects and the set is unchanged. -/
theorem applyCreate_unique (repo : List JsOrder) (o : JsOrder)
    (h : uniqueOrderNumbers repo) : uniqueOrderNumbers (applyCreate repo o) := by
  unfold applyCreate createOrder
  by_cases hc : repo.any (fun p => p.orderNumber = o.orderNumber)
  · simpa [hc] using h
  · simp only [hc, Bool.false_eq_true, if_neg, ite_false]
    unfold uniqueOrderNumbers at h ⊢
    rw [List.pairwise_append]
    refine ⟨h, List.pairwise_singleton _ _, ?_⟩
    intro a ha b hb
    simp only [List.mem_singleton] at hb
    subst hb
    simp only [List.any_eq_true, decide_eq_true_eq, not_exists, not_and] at hc
    exact hc a ha

/-! ## Validator reduction lemmas -/

theorem validateApp_gender (m : String) (now : Int) :
    validateApp stepGender m now
      = if m = "MALE" ∨ m = "FEMALE" then some (RegValue.str m) else none := rfl

theorem validateApp_provider (m : String) (now : Int) :
    validateApp stepMedicalAidProvider m now
      = optionIndexPick stepMedicalAidProvider m := rfl

theorem optionIndexPick_some (stp : RegStep) (m : String) (n : Int)
    (hp : jsParseInt m = some n) :
    optionIndexPick stp m
      = if 0 ≤ n - 1 ∧ n - 1 < (stp.options.length : Int) then
          match stp.options[(n - 1).toNat]? with
          | some t => some (RegValue.str t)
          | none => none
        else none := by
  unfold optionIndexPick
  rw [hp]

/-! ## Claim theorems -/

/-- C1: the claim says the date-of-birth validators reject any input that is
not a real calendar date strictly before now (year at least 1900), and in
particular reject `"31/02/2020"` leaving the step and scratch untouched.
The code does the opposite: `new Date(2020, 1, 31)` rolls 31 February over
to 2 March 2020, so `isNaN(date.getTime())` never fires, the date is in the
past, and both `validateDateOfBirth` (part_000) and the inline app.js
validation ACCEPT the input; the registration handler then writes the
rolled-over date into scratch and advances from the date-of-birth step
(index 2) to the gender step (index 3).  Evaluation at the failing input,
with "now" fixed to 14 Nov 2023 (1700000000000 ms). -/
theorem c1_dob_rollover_accepted :
    validateDateOfBirth 1700000000000 "31/02/2020" = true
    ∧ (appHandleRegistration uAtDOB "31/02/2020" 1700000000000).1.currentStep
        = some (StepV.num 3)
    ∧ getKey (appHandleRegistration uAtDOB "31/02/2020" 1700000000000).1.data
        "dateOfBirth" = some (RegValue.date (jsDateMs 2020 1 31))
    ∧ jsDateMs 2020 1 31 = jsDateMs 2020 2 2
    ∧ (appHandleRegistration uAtDOB "31/02/2020" 1700000000000).2
        = [regPrompt 3] := by decide

/-- C2 counterexample: the claim says a failed order persistence leaves
`currentFlow`, `currentStep` and `scratch` at their pre-finalization values.
At a concrete contact parked at `ENTER_HOME_ADDRESS` whose `order.save()`
rejects (duplicate order number), `finishOrder` instead resets the state to
the main menu and clears scratch. -/
theorem c2_state_reset_on_failure :
    (finishOrder000 5 7 999 repoC2 uFinishC2).1.currentStep = none
    ∧ (finishOrder000 5 7 999 repoC2 uFinishC2).1.currentFlow = some "MAIN_MENU"
    ∧ (finishOrder000 5 7 999 repoC2 uFinishC2).1.data = []
    ∧ uFinishC2.currentStep = some (StepV.str "ENTER_HOME_ADDRESS")
    ∧ uFinishC2.data ≠ [] := by decide

/-- C2 (amended): when persisting the Order fails, `finishOrder` sends an
error message and RESETS the conversation state to the main menu
(`currentFlow = "MAIN_MENU"`, `currentStep = null`, scratch cleared); the
pre-finalization step is not retained, so resending the same input does not
retry the finalization. -/
theorem c2_failure_resets_to_main_menu (t rnd now : Int)
    (repo : List JsOrder) (u : AUser)
    (hconf : repo.any
      (fun p => p.orderNumber = (buildOrder000 t rnd u).orderNumber) = true) :
    (finishOrder000 t rnd now repo u).1 = resetA u now := by
  unfold finishOrder000 createOrder
  simp [hconf]

/-- C2 witness: the amended theorem applied at a concrete conflicting
finalization. -/
theorem c2_failure_resets_to_main_menu_witness :
    (finishOrder000 5 7 999 repoC2 uFinishC2).1 = resetA uFinishC2 999 :=
  c2_failure_resets_to_main_menu 5 7 999 repoC2 uFinishC2 (by decide)

/-- C3 counterexample: the claim quantifies over EVERY registration step.
(1) In the 1-based revision (part_001 rev B, lines 1203-1209) the back
branch deletes the field of the step being left instead of the
just-collected one: entering "Smith" at step 2 (surname) and then sending
the back token returns to step 2 but leaves `surname = "Smith"` in scratch,
so forward-then-back does not restore the pre-forward scratch.
(2) In `src/app.js`, a valid input at the last step (index 7) triggers the
terminal action: the flow is left (`currentFlow = "MAIN_MENU"`,
`currentStep = null`) and scratch is discarded, so no back transition can
return the step to 7. -/
theorem c3_back_not_inverse_counterexample :
    ((handleRegistrationB (handleRegistrationB uB2 "Smith" 0).1 "00" 0).1.registrationStep = 2
    ∧ getKey (handleRegistrationB (handleRegistrationB uB2 "Smith" 0).1 "00" 0).1.registrationData
        "surname" = some (RegValue.str "Smith")
    ∧ getKey uB2.registrationData "surname" = none
    ∧ (handleRegistrationB (handleRegistrationB uB2 "Smith" 0).1 "00" 0).1 ≠ uB2)
    ∧ ((appHandleRegistration uAtLastStep "D123" 0).1.currentStep = none
    ∧ (appHandleRegistration uAtLastStep "D123" 0).1.currentFlow = some "MAIN_MENU"
    ∧ (appHandleRegistration uAtLastStep "D123" 0).1.data = []) := by decide

/-- C3 (amended): in the 0-based revision (`src/app.js` / part_001 rev A),
for every non-terminal registration step `s` and every input `v` that passes
validation and is processed forward, the forward transition followed by the
back token returns the full user document to exactly its pre-forward value
and emits only the step-`s` prompt (no validation and no invalid-input
message on the back transition, which deletes the just-collected field).
`RegInv` is the scratch invariant holding in every reachable registration
state (established by `regInv_of_data_nil` and `regInv_preserved`). -/
theorem c3_forward_back_roundtrip (u : AUser) (s : Nat) (stp : RegStep)
    (v : String) (pv : RegValue) (now : Int)
    (hstep : u.currentStep = some (StepV.num s))
    (hstp : registrationSteps[s]? = some stp)
    (hlt : s < registrationSteps.length - 1)
    (hback : ¬(v = "00" ∧ 0 < s))
    (hval : validateApp stp v now = some pv)
    (hinv : RegInv u) :
    appHandleRegistration (appHandleRegistration u v now).1 "00" now
      = (u, [regPrompt s]) := by
  have hkey : getKey u.data stp.field = none :=
    hinv s (by simp [stepIndex, hstep]) s le_rfl stp hstp
  have h1 : (appHandleRegistration u v now).1
      = { u with currentStep := some (StepV.num (s + 1)),
                 data := setKey u.data stp.field pv } := by
    simp [appHandleRegistration, handleRegistrationWith, hstep, hback, hstp,
      hval, hlt]
  have h2 : appHandleRegistration
      { u with currentStep := some (StepV.num (s + 1)),
               data := setKey u.data stp.field pv } "00" now
      = ({ u with currentStep := some (StepV.num s),
                  data := delKey (setKey u.data stp.field pv) stp.field },
         [regPrompt s]) := by
    simp [appHandleRegistration, handleRegistrationWith, hstp]
  rw [h1, h2, delKey_setKey u.data stp.field pv hkey, ← hstep]

/-- C3 witness: the amended round trip at the first step with input
"Alice". -/
theorem c3_forward_back_roundtrip_witness :
    appHandleRegistration (appHandleRegistration uFreshReg "Alice" 0).1 "00" 0
      = (uFreshReg, [regPrompt 0]) :=
  c3_forward_back_roundtrip uFreshReg 0 stepFirstName "Alice"
    (RegValue.str "Alice") 0 rfl rfl (by decide) (by decide) (by decide)
    (regInv_of_data_nil uFreshReg rfl)

/-- C4: when field validation rejects an input, the registration handler
returns the user document COMPLETELY unchanged (flow, step, scratch, and
even the timestamp) and emits exactly the invalid-input message followed by
a re-emission of the current step's prompt. -/
theorem c4_rejection_preserves_state (u : AUser) (s : Nat) (stp : RegStep)
    (m : String) (now : Int)
    (hstep : u.currentStep = some (StepV.num s))
    (hstp : registrationSteps[s]? = some stp)
    (hback : ¬(m = "00" ∧ 0 < s))
    (hrej : validateApp stp m now = none) :
    appHandleRegistration u m now = (u, [invalidInputMsg, regPrompt s]) := by
  simp [appHandleRegistration, handleRegistrationWith, hstep, hback, hstp, hrej]

/-- C4 witness: a rejected input ("BANANA" at the gender step) leaves the
document unchanged and re-prompts. -/
theorem c4_rejection_preserves_state_witness :
    appHandleRegistration uAtGender "BANANA" 0
      = (uAtGender, [invalidInputMsg, regPrompt 3]) :=
  c4_rejection_preserves_state uAtGender 3 stepGender "BANANA" 0 rfl rfl
    (by decide) (by decide)

/-- C5 counterexample: the claim covers "every flow including registration",
but the webhook routes contacts whose registration is incomplete directly to
`handleRegistration`, bypassing `handleConversation` and with it the
session-timeout check.  A contact mid-registration whose `lastUpdated` is
far older than 30 minutes still has its input processed against the stale
step: the first name is recorded, the step advances, and no session-expired
notice is sent. -/
theorem c5_registration_bypasses_timeout :
    (processIncomingA idFlowHandlers 1000000000 uStaleReg "John").1.currentFlow
        = some "REGISTRATION"
    ∧ (processIncomingA idFlowHandlers 1000000000 uStaleReg "John").1.currentStep
        = some (StepV.num 1)
    ∧ getKey (processIncomingA idFlowHandlers 1000000000 uStaleReg "John").1.data
        "firstName" = some (RegValue.str "John")
    ∧ uStaleReg.lastUpdated < 1000000000 - 30 * 60 * 1000
    ∧ timeoutMsg ∉ (processIncomingA idFlowHandlers 1000000000 uStaleReg "John").2 := by
  decide

/-- C5 (amended): for every REGISTERED contact reaching
`handleConversation`, every flow other than the main menu, every message,
and every behaviour of the other flow handlers: a `lastUpdated` older than
the 30-minute session timeout resets the conversation to the main menu and
emits the session-expired notice followed by the main-menu prompt — the
result does not depend on the message, so its business meaning is ignored. -/
theorem c5_timeout_resets_to_main_menu (h : FlowHandlers) (now : Int)
    (u : AUser) (m : String) (f : String)
    (hflow : u.currentFlow = some f) (hf : f ≠ "MAIN_MENU")
    (hstale : u.lastUpdated < now - 30 * 60 * 1000) :
    handleConversationA h now u m = (resetA u now, [timeoutMsg, mainMenuAMsg]) := by
  unfold handleConversationA
  have h1 : ¬(u.currentFlow = none ∨ u.currentFlow = some "MAIN_MENU") := by
    rw [hflow]
    rintro (hc | hc)
    · exact Option.noConfusion hc
    · exact hf (Option.some.inj hc)
  rw [if_neg h1, if_pos hstale]

/-- C5 witness: the timeout reset at a concrete stale mid-order contact. -/
theorem c5_timeout_resets_to_main_menu_witness :
    handleConversationA idFlowHandlers 3600000 uStaleOrder "2"
      = (resetA uStaleOrder 3600000, [timeoutMsg, mainMenuAMsg]) :=
  c5_timeout_resets_to_main_menu idFlowHandlers 3600000 uStaleOrder "2"
    "PLACE_ORDER" rfl (by decide) (by decide)

/-- C6 counterexample: at the numeric-mode medical-aid-provider step of
`src/app.js`, the declared option token "BOMAID" is REJECTED
(`parseInt("BOMAID")` is `NaN`), while "2abc" — which is neither a declared
option token nor one of the numerals "1"–"4" — is ACCEPTED and parsed as
"PULA", because `parseInt` reads the leading digit and ignores the rest. -/
theorem c6_option_validation_counterexample :
    validateApp stepMedicalAidProvider "BOMAID" 0 = none
    ∧ validateApp stepMedicalAidProvider "2abc" 0 = some (RegValue.str "PULA")
    ∧ "BOMAID" ∈ stepMedicalAidProvider.options
    ∧ "2abc" ∉ stepMedicalAidProvider.options
    ∧ "2abc" ∉ ["1", "2", "3", "4"] := by decide

/-- C6 (amended): each option step uses a single declared input mode.  The
token-mode gender step of `src/app.js` accepts exactly the declared option
tokens.  The numeric-mode medical-aid-provider step accepts exactly the
strings whose JS `parseInt` value is a 1-based index into the option list
(between 1 and 4) — which includes strings with trailing garbage such as
"2abc" and excludes the canonical tokens themselves. -/
theorem c6_option_validation_modes (m : String) (now : Int) :
    ((validateApp stepGender m now).isSome ↔ m ∈ stepGender.options)
    ∧ ((validateApp stepMedicalAidProvider m now).isSome
        ↔ ∃ n : Int, jsParseInt m = some n ∧ 1 ≤ n ∧ n ≤ 4) := by
  constructor
  · rw [validateApp_gender]
    by_cases hm : m = "MALE" ∨ m = "FEMALE" <;> simp [hm, stepGender]
  · rw [validateApp_provider]
    cases hp : jsParseInt m with
    | none =>
      have hred : optionIndexPick stepMedicalAidProvider m = none := by
        unfold optionIndexPick
        rw [hp]
      simp [hred]
    | some n =>
      rw [optionIndexPick_some stepMedicalAidProvider m n hp]
      have hlen : ((stepMedicalAidProvider.options.length : Nat) : Int) = 4 := rfl
      by_cases hb : 0 ≤ n - 1 ∧ n - 1 < ((stepMedicalAidProvider.options.length : Int))
      · rw [if_pos hb]
        obtain ⟨hb1, hb2⟩ := hb
        rw [hlen] at hb2
        have hlt : (n - 1).toNat < stepMedicalAidProvider.options.length := by
          show (n - 1).toNat < 4
          omega
        rw [List.getElem?_eq_getElem hlt]
        simp only [Option.isSome_some, true_iff]
        exact ⟨n, rfl, by omega, by omega⟩
      · rw [if_neg hb]
        rw [hlen] at hb
        simp only [Option.isSome_none, Bool.false_eq_true, false_iff, not_exists]
        rintro n' ⟨heq, hge, hle⟩
        have hn : n' = n := (Option.some.inj heq).symm
        subst hn
        omega

/-- C7: for every behaviour of the flow handlers, a single inbound event
processed by `handleConversationRecursively` (a) ends with the contact on
the main menu, (b) performs at most 11 flow dispatches — the initial one
plus at most 10 nested re-dispatches, matching the bound of 10 on nested
chains — and (c) when a flow's handlers cycle forever (here: a `PLACE_ORDER`
handler that always stays in `PLACE_ORDER` with a fresh timestamp), the call
at depth 11 hits the guard, aborts to the main-menu reset, and surfaces the
generic error message.  The Lean function is total by the very measure
`11 - depth` the guard enforces, so processing always terminates. -/
theorem c7_depth_guard (h : FlowHandlers) (now : Int) (u : AUser)
    (m : String) :
    (handleConversationRecursively h now u m 0).1.currentFlow = some "MAIN_MENU"
    ∧ conversationDispatchCount h now u m 0 ≤ 11
    ∧ (u.currentFlow = some "PLACE_ORDER" →
       ¬ isSessionTimedOut now u.lastUpdated →
       (∀ u' : AUser, ∀ m' : String, u'.currentFlow = some "PLACE_ORDER" →
         (h.placeOrder u' m').1.currentFlow = some "PLACE_ORDER" ∧
         ¬ isSessionTimedOut now (h.placeOrder u' m').1.lastUpdated) →
       (handleConversationRecursively h now u m 0).1.currentStep = none ∧
       (handleConversationRecursively h now u m 0).1.data = [] ∧
       issueMsg ∈ (handleConversationRecursively h now u m 0).2) := by
  refine ⟨convRec_flow_main h now m 11 0 u (by omega),
          by simpa using convCount_le h now m 11 0 u (by omega), ?_⟩
  intro hflow ht hK
  exact convRec_abort h now m hK 11 0 u (by omega) hflow ht

/-- C7 witness: the depth guard fires on a concrete cycling handler table
and the generic error message is among the sends. -/
theorem c7_depth_guard_witness :
    issueMsg ∈ (handleConversationRecursively loopFlowHandlers 0 uLoop "x" 0).2 :=
  ((c7_depth_guard loopFlowHandlers 0 uLoop "x").2.2 rfl (by decide)
    (fun u' m' hf => ⟨by simp [loopFlowHandlers, loopHandler],
                      by simp [loopFlowHandlers, loopHandler, isSessionTimedOut]⟩)).2.2

/-- C8: two finalizations — in whichever serial order the repository's
atomic single-document writes interleave them, and even when they run in the
same millisecond and generate identical order numbers — never leave the
repository with two persisted Orders bearing the same order number: the
`createOrder` contract (unique `orderNumber` index; `Conflict` on a
duplicate, modelled from the spec) rejects the second write. -/
theorem c8_order_number_unique (repo : List JsOrder) (o1 o2 : JsOrder)
    (h : uniqueOrderNumbers repo) :
    uniqueOrderNumbers (applyCreate (applyCreate repo o1) o2) :=
  applyCreate_unique _ o2 (applyCreate_unique repo o1 h)

/-- C8 witness: two orders generated in the same millisecond (identical
numbers) pushed into an empty repository still leave the persisted set
duplicate-free. -/
theorem c8_order_number_unique_witness :
    uniqueOrderNumbers (applyCreate (applyCreate [] orderW1) orderW2) :=
  c8_order_number_unique [] orderW1 orderW2 List.Pairwise.nil

/-- C9 counterexample: the claim says a duplicate-order-number conflict
triggers one regeneration and a retried save and is never surfaced to the
contact.  At a concrete conflicting finalization, `finishOrder` instead
sends the user-visible error message and leaves the repository untouched —
no regenerated number, no second save. -/
theorem c9_conflict_surfaced_to_user :
    orderErrMsg ∈ (finishOrder000 11 3 500 repoC9 uFinishC9).2.1
    ∧ (finishOrder000 11 3 500 repoC9 uFinishC9).2.2 = repoC9 := by decide

/-- C9 (amended): a duplicate-order-number conflict triggers NO regeneration
and NO retry: the messages sent are exactly the user-visible generic order
error followed by the main-menu prompt, and the repository is unchanged. -/
theorem c9_conflict_no_retry (t rnd now : Int) (repo : List JsOrder)
    (u : AUser)
    (hconf : repo.any
      (fun p => p.orderNumber = (buildOrder000 t rnd u).orderNumber) = true) :
    (finishOrder000 t rnd now repo u).2
      = ([orderErrMsg, mainMenu000Msg], repo) := by
  unfold finishOrder000 createOrder
  simp [hconf]

/-- C9 witness: the amended theorem applied at a concrete conflicting
finalization. -/
theorem c9_conflict_no_retry_witness :
    (finishOrder000 11 3 500 repoC9 uFinishC9).2
      = ([orderErrMsg, mainMenu000Msg], repoC9) :=
  c9_conflict_no_retry 11 3 500 repoC9 uFinishC9 (by decide)

/-- C10: in part_001 rev A, whose `PRESCRIPTION_OPTIONS` handler lacks a
`break` after the "New Prescription" case, selecting "New Prescription"
falls through into the abort-to-main-menu case: for every document, the
final state has `currentFlow = "MAIN_MENU"`, `currentStep = null` and empty
scratch (the intermediate `UPLOAD_PRESCRIPTION` step and the recorded
`NEW_PRESCRIPTION` order type are overwritten), and the upload prompt is
followed by the main menu. -/
theorem c10_new_prescription_fallthrough (u : AUser) (now : Int) :
    handlePrescriptionOptionsA now u "New Prescription"
      = (resetA u now, [uploadPromptMsg, mainMenuAMsg])
    ∧ (handlePrescriptionOptionsA now u "New Prescription").1.currentFlow
        = some "MAIN_MENU"
    ∧ (handlePrescriptionOptionsA now u "New Prescription").1.currentStep = none
    ∧ (handlePrescriptionOptionsA now u "New Prescription").1.data = [] := by
  have h1 : handlePrescriptionOptionsA now u "New Prescription"
      = (resetA u now, [uploadPromptMsg, mainMenuAMsg]) := rfl
  exact ⟨h1, by rw [h1]; rfl, by rw [h1]; rfl, by rw [h1]; rfl⟩

end Telepharma
